import Mathlib

/-!
Shallow embedding of the Thrapy backend (`src/backend/server.py`), a FastAPI
service for a therapy-booking platform.  Documents stored in MongoDB become
Lean structures; each collection is a list and `find_one` is `List.find?`
(first match, as in MongoDB's natural order over our list model).  Monetary
amounts (Python floats combined by exact closed-form arithmetic in the
source) are modelled as rationals; time is a `Nat` count of minutes since an
arbitrary epoch.  Route handlers become pure functions taking the database
and the ambient effects the source obtains from libraries (generated UUIDs,
the current time, the password-hash primitive, the LLM provider response)
as explicit arguments, returning an `Except`-style result paired with the
database after the handler's writes.
-/

/-- HTTP error raised by a handler (`fastapi.HTTPException`): a status code
and a human-readable detail string. -/
structure HTTPException where
  status_code : Nat
  detail : String
  deriving DecidableEq, Repr

/-- A document of the `users` collection (see `register`, server.py 168-175). -/
structure UserDoc where
  id : String
  email : String
  full_name : String
  role : String
  password_hash : String
  created_at : Nat
  deriving DecidableEq, Repr

/-- The `UserResponse` pydantic model (server.py 47-49). -/
structure UserResponse where
  id : String
  email : String
  full_name : String
  role : String
  created_at : Nat
  deriving DecidableEq, Repr

/-- A document of the `therapists` collection (see `register_therapist`,
server.py 233-243); coincides with the `TherapistProfile` response model. -/
structure TherapistDoc where
  id : String
  user_id : String
  license_number : String
  specialization : String
  hourly_rate : ℚ
  bio : String
  years_experience : Int
  is_available : Bool
  created_at : Nat
  deriving DecidableEq, Repr

/-- A document of the `sessions` collection (see `create_session`,
server.py 300-310); coincides with the `SessionResponse` model. -/
structure SessionDoc where
  id : String
  user_id : String
  therapist_id : Option String
  session_type : String
  scheduled_date : Option Nat
  duration_minutes : Int
  cost : ℚ
  status : String
  created_at : Nat
  deriving DecidableEq, Repr

/-- A document of the `payments` collection (see `create_session`,
server.py 315-329).  `platform_fee` and `therapist_earnings` are present
only for therapist sessions. -/
structure PaymentDoc where
  id : String
  user_id : String
  session_id : String
  amount : ℚ
  payment_type : String
  status : String
  platform_fee : Option ℚ
  therapist_earnings : Option ℚ
  created_at : Nat
  deriving DecidableEq, Repr

/-- A document of the `chat_history` collection (see `ai_chat`,
server.py 371-378). -/
structure ChatHistoryDoc where
  id : String
  session_id : String
  user_id : String
  user_message : String
  ai_response : String
  timestamp : Nat
  deriving DecidableEq, Repr

/-- The state of the document store: the collections the modelled routes
touch, each a list in insertion order. -/
structure DB where
  users : List UserDoc
  therapists : List TherapistDoc
  sessions : List SessionDoc
  payments : List PaymentDoc
  chat_history : List ChatHistoryDoc
  deriving DecidableEq, Repr

/-- Request body of `/api/auth/register` (`UserCreate`, server.py 39-45);
`role` defaults to `"client"` at the pydantic layer. -/
structure UserCreate where
  email : String
  full_name : String
  role : String := "client"
  password : String
  deriving DecidableEq, Repr

/-- Request body of `/api/therapist/register` (`TherapistRegistration`,
server.py 60-65). -/
structure TherapistRegistration where
  license_number : String
  specialization : String
  hourly_rate : ℚ
  bio : String
  years_experience : Int
  deriving DecidableEq, Repr

/-- Request body of `/api/sessions/create` (`SessionCreate` =
`SessionBase` + optional `therapist_id`, server.py 87-94).  Note that the
pydantic model declares `cost: float` with no default, so the field is
required in the request, and declares no constraint on `duration_minutes`
beyond it being an integer (default 60 at the pydantic layer). -/
structure SessionCreate where
  session_type : String
  scheduled_date : Option Nat := none
  duration_minutes : Int := 60
  cost : ℚ
  therapist_id : Option String := none
  deriving DecidableEq, Repr

/-- Request body of `/api/ai-chat` (`ChatMessage`, server.py 103-105). -/
structure ChatMessage where
  session_id : String
  message : String
  deriving DecidableEq, Repr

/-- Response body of `/api/ai-chat` (`ChatResponse`, server.py 107-109). -/
structure ChatResponse where
  response : String
  session_id : String
  deriving DecidableEq, Repr

/-- Token validity: `JWT_EXPIRATION_TIME_MINUTES = 60 * 24 * 7` minutes,
i.e. 7 days (server.py 30). -/
def JWT_EXPIRATION_TIME_MINUTES : Nat := 60 * 24 * 7

/-- The payload carried by a signed JWT in this service: the claims written
by `create_access_token` (`sub`, and `exp` as minutes since the epoch).
The JWT encode/decode primitives are external library calls used as-is
(spec §1, §4.1); a token produced with the service's fixed secret and
algorithm is modelled by its payload, and signature verification by the
fact that only such payloads inhabit this type. -/
structure JwtToken where
  sub : Option String
  exp : Nat
  deriving DecidableEq, Repr

/-- `create_access_token` (server.py 129-134) applied to
`data = {"sub": user_id}` as at both call sites: copies the data and sets
`exp = now + JWT_EXPIRATION_TIME_MINUTES`. -/
def create_access_token (user_id : String) (now : Nat) : JwtToken :=
  { sub := some user_id, exp := now + JWT_EXPIRATION_TIME_MINUTES }

/-- `jwt.decode` on a well-signed token: PyJWT rejects a token whose `exp`
claim lies strictly in the past (raising `ExpiredSignatureError`, a
`PyJWTError`), and otherwise yields the payload. -/
def jwt_decode (tok : JwtToken) (now : Nat) : Option JwtToken :=
  if tok.exp < now then none else some tok

/-- The `TokenResponse` model (server.py 55-58). -/
structure TokenResponse where
  access_token : JwtToken
  token_type : String
  user : UserResponse
  deriving DecidableEq, Repr

/-- `get_current_user` (server.py 136-149): decodes the bearer token
(`PyJWTError`, hence expiry, maps to 401 "Invalid token"), requires a
`sub` claim, and resolves it against the `users` collection
(401 "User not found" if absent). -/
def get_current_user (db : DB) (tok : JwtToken) (now : Nat) :
    Except HTTPException UserResponse :=
  match jwt_decode tok now with
  | none => .error ⟨401, "Invalid token"⟩
  | some payload =>
    match payload.sub with
    | none => .error ⟨401, "Invalid token"⟩
    | some user_id =>
      match db.users.find? (fun u => u.id == user_id) with
      | none => .error ⟨401, "User not found"⟩
      | some user => .ok ⟨user.id, user.email, user.full_name, user.role, user.created_at⟩

/-- `register` (server.py 157-194).  `uid` is the generated UUID, `hashFn`
the external `hash_password` primitive, `now` the current time.  On a
duplicate email the handler raises before any write. -/
def register (db : DB) (user : UserCreate) (uid : String)
    (hashFn : String → String) (now : Nat) :
    Except HTTPException TokenResponse × DB :=
  match db.users.find? (fun u => u.email == user.email) with
  | some _ => (.error ⟨400, "Email already registered"⟩, db)
  | none =>
    let user_doc : UserDoc :=
      ⟨uid, user.email, user.full_name, user.role, hashFn user.password, now⟩
    let access_token := create_access_token uid now
    (.ok ⟨access_token, "bearer", ⟨uid, user.email, user.full_name, user.role, now⟩⟩,
     { db with users := db.users ++ [user_doc] })

/-- `register_therapist` (server.py 219-247): only role `"therapist"` may
create a profile (403), a second profile for the same user is rejected
(400), otherwise a profile with `is_available = True` is inserted. -/
def register_therapist (db : DB) (therapist_data : TherapistRegistration)
    (current_user : UserResponse) (tid : String) (now : Nat) :
    Except HTTPException TherapistDoc × DB :=
  if current_user.role ≠ "therapist" then
    (.error ⟨403, "Only therapists can register as therapists"⟩, db)
  else
    match db.therapists.find? (fun t => t.user_id == current_user.id) with
    | some _ => (.error ⟨400, "Therapist profile already exists"⟩, db)
    | none =>
      let therapist_doc : TherapistDoc :=
        ⟨tid, current_user.id, therapist_data.license_number,
         therapist_data.specialization, therapist_data.hourly_rate,
         therapist_data.bio, therapist_data.years_experience, true, now⟩
      (.ok therapist_doc, { db with therapists := db.therapists ++ [therapist_doc] })

/-- `get_therapists` (server.py 249-252):
`db.therapists.find({"is_available": True}).to_list(100)` — the available
profiles, at most 100 of them. -/
def get_therapists (db : DB) : List TherapistDoc :=
  (db.therapists.filter (fun t => t.is_available)).take 100

/-- The successful tail of `create_session` (server.py 300-333): given the
computed cost, insert the session document, then the paired payment
document (with the 30%/70% split for therapist sessions, server.py
325-329), and return the session. -/
def create_session_commit (db : DB) (session_data : SessionCreate)
    (uid sid pid : String) (now : Nat) (cost : ℚ) :
    Except HTTPException SessionDoc × DB :=
  let session_doc : SessionDoc :=
    ⟨sid, uid, session_data.therapist_id, session_data.session_type,
     session_data.scheduled_date, session_data.duration_minutes, cost,
     "scheduled", now⟩
  let base : PaymentDoc :=
    ⟨pid, uid, sid, cost, session_data.session_type ++ "_session",
     "completed", none, none, now⟩
  let payment_doc : PaymentDoc :=
    if session_data.session_type = "therapist" then
      { base with platform_fee := some (cost * 0.30),
                  therapist_earnings := some (cost * 0.70) }
    else base
  (.ok session_doc,
   { db with sessions := db.sessions ++ [session_doc],
             payments := db.payments ++ [payment_doc] })

/-- `create_session` (server.py 278-333).  `uid` is the authenticated
caller's id, `sid`/`pid` the generated UUIDs for the session and payment
documents.  Cost computation (server.py 286-298): `"ai"` sessions cost
`5.0 * (duration_minutes / 60)`; `"therapist"` sessions require a truthy
`therapist_id` (Python falsiness: absent or the empty string raises 400)
resolving in the `therapists` collection (404 otherwise) and cost
`hourly_rate * (duration_minutes / 60)`; any other type raises 400.  All
raises happen before any write, so the returned database equals the input
database on every error. -/
def create_session (db : DB) (session_data : SessionCreate)
    (uid sid pid : String) (now : Nat) :
    Except HTTPException SessionDoc × DB :=
  if session_data.session_type = "ai" then
    create_session_commit db session_data uid sid pid now
      (5.0 * ((session_data.duration_minutes : ℚ) / 60))
  else if session_data.session_type = "therapist" then
    match session_data.therapist_id with
    | none => (.error ⟨400, "Therapist ID required for therapist sessions"⟩, db)
    | some tid =>
      if tid = "" then
        (.error ⟨400, "Therapist ID required for therapist sessions"⟩, db)
      else
        match db.therapists.find? (fun t => t.id == tid) with
        | none => (.error ⟨404, "Therapist not found"⟩, db)
        | some therapist =>
          create_session_commit db session_data uid sid pid now
            (therapist.hourly_rate * ((session_data.duration_minutes : ℚ) / 60))
  else
    (.error ⟨400, "Invalid session type"⟩, db)

/-- `ai_chat` (server.py 341-388).  The handler first looks up a session
matching the caller's id, the requested session id and type `"ai"`
simultaneously (server.py 347-351) and raises one fixed 404 when no
document matches (server.py 353-354).  The external LLM call is modelled
by the oracle `llm` (`.error e` = provider failure, mapped to a 500
carrying the upstream text); on success one chat-history document is
appended and the response returned. -/
def ai_chat (db : DB) (chat_message : ChatMessage) (uid : String)
    (llm : Except String String) (mid : String) (now : Nat) :
    Except HTTPException ChatResponse × DB :=
  match db.sessions.find? (fun s =>
      s.id == chat_message.session_id && s.user_id == uid &&
      s.session_type == "ai") with
  | none => (.error ⟨404, "AI session not found"⟩, db)
  | some _ =>
    match llm with
    | .error e => (.error ⟨500, "AI chat error: " ++ e⟩, db)
    | .ok response =>
      let message_doc : ChatHistoryDoc :=
        ⟨mid, chat_message.session_id, uid, chat_message.message, response, now⟩
      (.ok ⟨response, chat_message.session_id⟩,
       { db with chat_history := db.chat_history ++ [message_doc] })

/-! ### Concrete documents and requests used by witnesses -/

/-- An example therapist profile with hourly rate 80. -/
def exTherapist : TherapistDoc :=
  ⟨"t1", "tu1", "LIC-1", "cbt", 80, "bio", 5, true, 0⟩

/-- An example user document. -/
def exUser : UserDoc :=
  ⟨"u1", "one@example.com", "User One", "client", "hash1", 0⟩

/-- An example database holding one user and one available therapist. -/
def exDb : DB := ⟨[exUser], [exTherapist], [], [], []⟩

/-- An AI-session request for 30 minutes. -/
def reqAi30 : SessionCreate := ⟨"ai", none, 30, 0, none⟩

/-- A therapist-session request for 90 minutes with therapist `"t1"`. -/
def reqTh90 : SessionCreate := ⟨"therapist", none, 90, 0, some "t1"⟩

/-! ### Claims -/

/-- **C1.** For every session-creation request with `session_type = "ai"`
and duration `d` minutes, the computed cost is `5.0 * (d / 60)`; for
`d = 30` it is exactly `2.5` and for `d = 120` exactly `10.0`; the cost is
stored both in the inserted session document and as the paired payment
document's `amount`. -/
theorem c1_ai_session_cost (db : DB) (sd : SessionCreate)
    (uid sid pid : String) (now : Nat) (h : sd.session_type = "ai") :
    ∃ sdoc pdoc db2,
      create_session db sd uid sid pid now = (.ok sdoc, db2) ∧
      db2.payments = db.payments ++ [pdoc] ∧
      db2.sessions = db.sessions ++ [sdoc] ∧
      sdoc.cost = 5.0 * ((sd.duration_minutes : ℚ) / 60) ∧
      pdoc.amount = sdoc.cost ∧
      (sd.duration_minutes = 30 → sdoc.cost = 2.5) ∧
      (sd.duration_minutes = 120 → sdoc.cost = 10.0) := by
  obtain ⟨st, sched, d, c, tidf⟩ := sd
  have h1 : st = "ai" := h
  subst h1
  refine ⟨_, _, _, rfl, rfl, rfl, rfl, rfl, ?_, ?_⟩ <;>
    · intro hd
      have hd' : d = _ := hd
      subst hd'
      norm_num

/-- Witness for C1: the telescoped claim at the concrete 30-minute AI
request against the example database. -/
theorem c1_witness :
    ∃ sdoc pdoc db2,
      create_session exDb reqAi30 "u9" "s1" "p1" 7 = (.ok sdoc, db2) ∧
      db2.payments = exDb.payments ++ [pdoc] ∧
      db2.sessions = exDb.sessions ++ [sdoc] ∧
      sdoc.cost = 5.0 * ((reqAi30.duration_minutes : ℚ) / 60) ∧
      pdoc.amount = sdoc.cost ∧
      (reqAi30.duration_minutes = 30 → sdoc.cost = 2.5) ∧
      (reqAi30.duration_minutes = 120 → sdoc.cost = 10.0) :=
  c1_ai_session_cost exDb reqAi30 "u9" "s1" "p1" 7 rfl

/-- **C2.** For every accepted therapist-session creation whose therapist
resolves with hourly rate `r` and duration `d` minutes: the cost is
`r * (d / 60)`, the payment document carries
`platform_fee = cost * 0.30` and `therapist_earnings = cost * 0.70`, the
two add up to the cost exactly, and for `r = 80`, `d = 90` the values are
`120`, `36` and `84`. -/
theorem c2_therapist_payment_split (db : DB) (sd : SessionCreate)
    (uid sid pid tid : String) (t : TherapistDoc) (now : Nat)
    (h : sd.session_type = "therapist") (hid : sd.therapist_id = some tid)
    (hne : tid ≠ "")
    (hfind : db.therapists.find? (fun x => x.id == tid) = some t) :
    ∃ sdoc pdoc db2,
      create_session db sd uid sid pid now = (.ok sdoc, db2) ∧
      db2.payments = db.payments ++ [pdoc] ∧
      db2.sessions = db.sessions ++ [sdoc] ∧
      sdoc.cost = t.hourly_rate * ((sd.duration_minutes : ℚ) / 60) ∧
      pdoc.amount = sdoc.cost ∧
      pdoc.platform_fee = some (sdoc.cost * 0.30) ∧
      pdoc.therapist_earnings = some (sdoc.cost * 0.70) ∧
      sdoc.cost * 0.30 + sdoc.cost * 0.70 = sdoc.cost ∧
      (t.hourly_rate = 80 → sd.duration_minutes = 90 →
        sdoc.cost = 120 ∧ sdoc.cost * 0.30 = 36 ∧ sdoc.cost * 0.70 = 84) := by
  obtain ⟨st, sched, d, c, tidf⟩ := sd
  have h1 : st = "therapist" := h
  have h2 : tidf = some tid := hid
  subst h1
  subst h2
  simp only [create_session, String.reduceEq, reduceIte, if_neg hne, hfind]
  refine ⟨_, _, _, rfl, rfl, rfl, rfl, rfl, rfl, rfl, ?_, ?_⟩
  · rw [← mul_add]
    norm_num
  · intro hr hd
    have hd' : d = _ := hd
    subst hd'
    rw [hr]
    norm_num

/-- Witness for C2: the concrete 90-minute therapist session with the
rate-80 example therapist. -/
theorem c2_witness :
    ∃ sdoc pdoc db2,
      create_session exDb reqTh90 "u9" "s1" "p1" 7 = (.ok sdoc, db2) ∧
      db2.payments = exDb.payments ++ [pdoc] ∧
      db2.sessions = exDb.sessions ++ [sdoc] ∧
      sdoc.cost = exTherapist.hourly_rate * ((reqTh90.duration_minutes : ℚ) / 60) ∧
      pdoc.amount = sdoc.cost ∧
      pdoc.platform_fee = some (sdoc.cost * 0.30) ∧
      pdoc.therapist_earnings = some (sdoc.cost * 0.70) ∧
      sdoc.cost * 0.30 + sdoc.cost * 0.70 = sdoc.cost ∧
      (exTherapist.hourly_rate = 80 → reqTh90.duration_minutes = 90 →
        sdoc.cost = 120 ∧ sdoc.cost * 0.30 = 36 ∧ sdoc.cost * 0.70 = 84) :=
  c2_therapist_payment_split exDb reqTh90 "u9" "s1" "p1" "t1" exTherapist 7
    rfl rfl (by decide) rfl

/-- A therapist-session request omitting `therapist_id`. -/
def reqThNoId : SessionCreate := ⟨"therapist", none, 60, 0, none⟩

/-- A therapist-session request naming a non-existent therapist. -/
def reqThGhost : SessionCreate := ⟨"therapist", none, 60, 0, some "ghost"⟩

/-- A request with an unsupported session type. -/
def reqBadType : SessionCreate := ⟨"group", none, 60, 0, none⟩

/-- **C3.** Session creation fails with 400 when `session_type =
"therapist"` and no `therapist_id` is supplied, with 404 when the supplied
id resolves to no therapist document, and with 400 for every
`session_type` other than `"ai"` and `"therapist"`; in each case the
returned database is the input database (no session or payment written). -/
theorem c3_session_creation_failures (db : DB) (sd : SessionCreate)
    (uid sid pid : String) (now : Nat) :
    (sd.session_type = "therapist" → sd.therapist_id = none →
      create_session db sd uid sid pid now =
        (.error ⟨400, "Therapist ID required for therapist sessions"⟩, db)) ∧
    (∀ tid, sd.session_type = "therapist" → sd.therapist_id = some tid →
      tid ≠ "" → db.therapists.find? (fun t => t.id == tid) = none →
      create_session db sd uid sid pid now =
        (.error ⟨404, "Therapist not found"⟩, db)) ∧
    (sd.session_type ≠ "ai" → sd.session_type ≠ "therapist" →
      create_session db sd uid sid pid now =
        (.error ⟨400, "Invalid session type"⟩, db)) := by
  obtain ⟨st, sched, d, c, tidf⟩ := sd
  refine ⟨?_, ?_, ?_⟩
  · intro h1 h2
    have h1' : st = "therapist" := h1
    have h2' : tidf = none := h2
    subst h1'
    subst h2'
    rfl
  · intro tid h1 h2 hne hfind
    have h1' : st = "therapist" := h1
    have h2' : tidf = some tid := h2
    subst h1'
    subst h2'
    simp only [create_session, String.reduceEq, reduceIte, if_neg hne, hfind]
  · intro h1 h2
    have h1' : ¬(st = "ai") := h1
    have h2' : ¬(st = "therapist") := h2
    simp only [create_session, if_neg h1', if_neg h2']

/-- Witness for C3: the three concrete failing requests against the
example database, each leaving it unchanged. -/
theorem c3_witness :
    create_session exDb reqThNoId "u9" "s1" "p1" 7 =
      (.error ⟨400, "Therapist ID required for therapist sessions"⟩, exDb) ∧
    create_session exDb reqThGhost "u9" "s1" "p1" 7 =
      (.error ⟨404, "Therapist not found"⟩, exDb) ∧
    create_session exDb reqBadType "u9" "s1" "p1" 7 =
      (.error ⟨400, "Invalid session type"⟩, exDb) :=
  ⟨(c3_session_creation_failures exDb reqThNoId "u9" "s1" "p1" 7).1 rfl rfl,
   (c3_session_creation_failures exDb reqThGhost "u9" "s1" "p1" 7).2.1 "ghost"
     rfl rfl (by decide) rfl,
   (c3_session_creation_failures exDb reqBadType "u9" "s1" "p1" 7).2.2
     (by decide) (by decide)⟩

/-- A zero-duration AI-session request (accepted by the code). -/
def reqAi0 : SessionCreate := ⟨"ai", none, 0, 0, none⟩

/-- **C9 (counterexample).** The claim that session creation only accepts
`duration_minutes > 0` is false: the concrete request with
`duration_minutes = 0` is accepted (the handler returns `.ok`) and the
stored `sessions` collection afterwards holds exactly one document, whose
duration is `0`. -/
theorem c9_counterexample :
    (create_session exDb reqAi0 "u9" "s1" "p1" 7).1.map
      (fun s => s.duration_minutes) = .ok 0 ∧
    ((create_session exDb reqAi0 "u9" "s1" "p1" 7).2.sessions.map
      (fun s => s.duration_minutes)) = [0] :=
  ⟨rfl, rfl⟩

/-- **C9 (amended).** `create_session` applies no positivity check to
`duration_minutes`: every `"ai"` request — including ones with zero or
negative duration — is accepted, and the stored session's
`duration_minutes` equals the requested value unchanged. -/
theorem c9_no_duration_validation (db : DB) (sd : SessionCreate)
    (uid sid pid : String) (now : Nat) (h : sd.session_type = "ai") :
    ∃ sdoc db2, create_session db sd uid sid pid now = (.ok sdoc, db2) ∧
      sdoc.duration_minutes = sd.duration_minutes ∧ sdoc ∈ db2.sessions := by
  obtain ⟨st, sched, d, c, tidf⟩ := sd
  have h1 : st = "ai" := h
  subst h1
  refine ⟨_, _, rfl, rfl, ?_⟩
  exact List.mem_append_right _ (List.mem_singleton_self _)

/-- Witness for C9's amended claim: a negative 30-minute request is
accepted and stored with duration `-30`. -/
theorem c9_witness :
    ∃ sdoc db2,
      create_session exDb ⟨"ai", none, -30, 0, none⟩ "u9" "s1" "p1" 7 =
        (.ok sdoc, db2) ∧
      sdoc.duration_minutes = (⟨"ai", none, -30, 0, none⟩ : SessionCreate).duration_minutes ∧
      sdoc ∈ db2.sessions :=
  c9_no_duration_validation exDb ⟨"ai", none, -30, 0, none⟩ "u9" "s1" "p1" 7 rfl

/-- **C10.** The client-supplied `cost` field of the request body has no
effect: two `create_session` calls on the same database and identical
requests except for `cost` return identical results — same stored
session (hence same response cost), same payment document, same final
database.  (The field is nonetheless required by the `SessionCreate`
model.) -/
theorem c10_supplied_cost_ignored (db : DB) (r1 r2 : SessionCreate)
    (uid sid pid : String) (now : Nat)
    (ht : r1.session_type = r2.session_type)
    (hs : r1.scheduled_date = r2.scheduled_date)
    (hd : r1.duration_minutes = r2.duration_minutes)
    (hi : r1.therapist_id = r2.therapist_id) :
    create_session db r1 uid sid pid now = create_session db r2 uid sid pid now := by
  obtain ⟨st1, sc1, d1, c1, ti1⟩ := r1
  obtain ⟨st2, sc2, d2, c2, ti2⟩ := r2
  have h1 : st1 = st2 := ht
  have h2 : sc1 = sc2 := hs
  have h3 : d1 = d2 := hd
  have h4 : ti1 = ti2 := hi
  subst h1
  subst h2
  subst h3
  subst h4
  rfl

/-- Witness for C10: supplied costs `0` and `99` yield identical outcomes
for an otherwise-identical AI-session request. -/
theorem c10_witness :
    create_session exDb ⟨"ai", none, 60, 0, none⟩ "u9" "s1" "p1" 7 =
      create_session exDb ⟨"ai", none, 60, 99, none⟩ "u9" "s1" "p1" 7 :=
  c10_supplied_cost_ignored exDb ⟨"ai", none, 60, 0, none⟩
    ⟨"ai", none, 60, 99, none⟩ "u9" "s1" "p1" 7 rfl rfl rfl rfl

/-- **C4.** For a user that exists in the store, issuing a token and
resolving it within the 7-day validity window yields the original user
id; resolving the same token strictly after the window fails with the
401 invalid-token error. -/
theorem c4_token_round_trip (db : DB) (uid : String) (t0 t : Nat)
    (hu : (db.users.find? (fun u => u.id == uid)).isSome = true) :
    (t ≤ t0 + JWT_EXPIRATION_TIME_MINUTES →
      ∃ resp, get_current_user db (create_access_token uid t0) t = .ok resp ∧
        resp.id = uid) ∧
    (t0 + JWT_EXPIRATION_TIME_MINUTES < t →
      get_current_user db (create_access_token uid t0) t =
        .error ⟨401, "Invalid token"⟩) := by
  constructor
  · intro hle
    obtain ⟨u, hu'⟩ := Option.isSome_iff_exists.mp hu
    have hid : u.id = uid := by
      have hp := List.find?_some hu'
      simpa using hp
    refine ⟨⟨u.id, u.email, u.full_name, u.role, u.created_at⟩, ?_, hid⟩
    simp only [get_current_user, create_access_token, jwt_decode,
      if_neg (not_lt.mpr hle), hu']
  · intro hlt
    simp only [get_current_user, create_access_token, jwt_decode, if_pos hlt]

/-- Witness for C4: the example user's token, resolved at minute 100 and
at minute 20000 (past the 10080-minute window). -/
theorem c4_witness :
    (∃ resp, get_current_user exDb (create_access_token "u1" 0) 100 = .ok resp ∧
      resp.id = "u1") ∧
    get_current_user exDb (create_access_token "u1" 0) 20000 =
      .error ⟨401, "Invalid token"⟩ :=
  ⟨(c4_token_round_trip exDb "u1" 0 100 rfl).1 (by decide),
   (c4_token_round_trip exDb "u1" 0 20000 rfl).2 (by decide)⟩

/-- **C5.** Whenever no stored session simultaneously matches the
requested session id, the caller's user id and type `"ai"` — which covers
a session id that does not exist, a session owned by a different user,
and a session of the caller with a non-`"ai"` type — `ai_chat` returns
the one fixed 404 response and writes nothing; consequently any two such
calls (even with different databases, callers and provider oracles) are
indistinguishable. -/
theorem c5_ai_chat_no_leak (db db2 : DB) (cm cm2 : ChatMessage)
    (uid uid2 mid mid2 : String) (llm llm2 : Except String String)
    (now now2 : Nat)
    (h : ∀ s ∈ db.sessions,
      ¬(s.id = cm.session_id ∧ s.user_id = uid ∧ s.session_type = "ai"))
    (h2 : ∀ s ∈ db2.sessions,
      ¬(s.id = cm2.session_id ∧ s.user_id = uid2 ∧ s.session_type = "ai")) :
    ai_chat db cm uid llm mid now = (.error ⟨404, "AI session not found"⟩, db) ∧
    (ai_chat db cm uid llm mid now).1 = (ai_chat db2 cm2 uid2 llm2 mid2 now2).1 := by
  have hf : db.sessions.find? (fun s =>
      s.id == cm.session_id && s.user_id == uid && s.session_type == "ai") = none := by
    rw [List.find?_eq_none]
    intro s hs
    simpa [and_assoc] using h s hs
  have hf2 : db2.sessions.find? (fun s =>
      s.id == cm2.session_id && s.user_id == uid2 && s.session_type == "ai") = none := by
    rw [List.find?_eq_none]
    intro s hs
    simpa [and_assoc] using h2 s hs
  constructor
  · simp only [ai_chat, hf]
  · simp only [ai_chat, hf, hf2]

/-- A session owned by a user other than `"u1"`. -/
def exForeignSession : SessionDoc :=
  ⟨"sa", "other", none, "ai", none, 60, 5, "scheduled", 0⟩

/-- A non-`"ai"` session owned by `"u1"`. -/
def exOwnedTherSession : SessionDoc :=
  ⟨"sb", "u1", some "t1", "therapist", none, 60, 120, "scheduled", 0⟩

/-- Database where session `"sa"` exists but belongs to another user. -/
def exDbForeign : DB := ⟨[exUser], [exTherapist], [exForeignSession], [], []⟩

/-- Database where session `"sb"` belongs to the caller but is not an AI
session. -/
def exDbWrongType : DB := ⟨[exUser], [exTherapist], [exOwnedTherSession], [], []⟩

/-- Witness for C5: caller `"u1"` probing a session owned by someone else,
a session id that exists nowhere, and their own non-AI session — all
three produce the identical 404 response, independent of the provider
oracle. -/
theorem c5_witness :
    (ai_chat exDbForeign ⟨"sa", "hi"⟩ "u1" (.ok "resp") "m1" 7 =
      (.error ⟨404, "AI session not found"⟩, exDbForeign) ∧
     (ai_chat exDbForeign ⟨"sa", "hi"⟩ "u1" (.ok "resp") "m1" 7).1 =
      (ai_chat exDb ⟨"sa", "hi"⟩ "u1" (.error "down") "m2" 9).1) ∧
    (ai_chat exDbWrongType ⟨"sb", "hi"⟩ "u1" (.ok "resp") "m1" 7 =
      (.error ⟨404, "AI session not found"⟩, exDbWrongType) ∧
     (ai_chat exDbWrongType ⟨"sb", "hi"⟩ "u1" (.ok "resp") "m1" 7).1 =
      (ai_chat exDb ⟨"sb", "hi"⟩ "u1" (.error "down") "m2" 9).1) :=
  ⟨c5_ai_chat_no_leak exDbForeign exDb ⟨"sa", "hi"⟩ ⟨"sa", "hi"⟩ "u1" "u1"
     "m1" "m2" (.ok "resp") (.error "down") 7 9 (by decide) (by decide),
   c5_ai_chat_no_leak exDbWrongType exDb ⟨"sb", "hi"⟩ ⟨"sb", "hi"⟩ "u1" "u1"
     "m1" "m2" (.ok "resp") (.error "down") 7 9 (by decide) (by decide)⟩

/-- **C6.** Registering with an email for which a user document already
exists fails with the 400 conflict error, for every combination of the
remaining fields, and leaves the whole database (in particular the
`users` collection) unchanged. -/
theorem c6_duplicate_email_conflict (db : DB) (u : UserCreate) (uid : String)
    (hashFn : String → String) (now : Nat)
    (h : (db.users.find? (fun x => x.email == u.email)).isSome = true) :
    register db u uid hashFn now = (.error ⟨400, "Email already registered"⟩, db) := by
  obtain ⟨w, hw⟩ := Option.isSome_iff_exists.mp h
  simp only [register, hw]

/-- Witness for C6: re-registering the example user's email with entirely
different name, password and role is rejected and the database is
untouched. -/
theorem c6_witness :
    register exDb ⟨"one@example.com", "Other Name", "therapist", "pw2"⟩ "u2"
      (fun s => s) 9 = (.error ⟨400, "Email already registered"⟩, exDb) :=
  c6_duplicate_email_conflict exDb
    ⟨"one@example.com", "Other Name", "therapist", "pw2"⟩ "u2" (fun s => s) 9 rfl

/-- **C7.** Therapist profile creation fails with 403 for every caller
whose role is not `"therapist"`; fails with 400 whenever a profile for
the caller's user id already exists (the duplicate is rejected, nothing
merged — the database is unchanged); and only when both checks pass is a
new profile with `is_available = true` for the caller inserted. -/
theorem c7_therapist_registration_guard (db : DB) (td : TherapistRegistration)
    (cu : UserResponse) (tid : String) (now : Nat) :
    (cu.role ≠ "therapist" →
      register_therapist db td cu tid now =
        (.error ⟨403, "Only therapists can register as therapists"⟩, db)) ∧
    (cu.role = "therapist" →
      (db.therapists.find? (fun t => t.user_id == cu.id)).isSome = true →
      register_therapist db td cu tid now =
        (.error ⟨400, "Therapist profile already exists"⟩, db)) ∧
    (cu.role = "therapist" →
      db.therapists.find? (fun t => t.user_id == cu.id) = none →
      ∃ doc, register_therapist db td cu tid now =
          (.ok doc, { db with therapists := db.therapists ++ [doc] }) ∧
        doc.is_available = true ∧ doc.user_id = cu.id) := by
  refine ⟨?_, ?_, ?_⟩
  · intro hr
    simp only [register_therapist, if_pos hr]
  · intro hr hex
    obtain ⟨w, hw⟩ := Option.isSome_iff_exists.mp hex
    simp only [register_therapist, if_neg (not_not_intro hr), hw]
  · intro hr hnone
    simp only [register_therapist, if_neg (not_not_intro hr), hnone]
    exact ⟨_, rfl, rfl, rfl⟩

/-- A therapist-registration request body used by the C7 witness. -/
def exRegistration : TherapistRegistration := ⟨"LIC-2", "cbt", 100, "b", 3⟩

/-- Witness for C7: a client-role caller is refused, the already-profiled
therapist user `"tu1"` is refused, and a fresh therapist user `"tu2"`
gets an available profile inserted. -/
theorem c7_witness :
    register_therapist exDb exRegistration
      ⟨"u1", "one@example.com", "User One", "client", 0⟩ "t9" 7 =
      (.error ⟨403, "Only therapists can register as therapists"⟩, exDb) ∧
    register_therapist exDb exRegistration
      ⟨"tu1", "t1@example.com", "Thera", "therapist", 0⟩ "t9" 7 =
      (.error ⟨400, "Therapist profile already exists"⟩, exDb) ∧
    (∃ doc, register_therapist exDb exRegistration
        ⟨"tu2", "t2@example.com", "Newt", "therapist", 0⟩ "t9" 7 =
        (.ok doc, { exDb with therapists := exDb.therapists ++ [doc] }) ∧
      doc.is_available = true ∧ doc.user_id = "tu2") :=
  ⟨(c7_therapist_registration_guard exDb exRegistration
      ⟨"u1", "one@example.com", "User One", "client", 0⟩ "t9" 7).1 (by decide),
   (c7_therapist_registration_guard exDb exRegistration
      ⟨"tu1", "t1@example.com", "Thera", "therapist", 0⟩ "t9" 7).2.1 rfl rfl,
   (c7_therapist_registration_guard exDb exRegistration
      ⟨"tu2", "t2@example.com", "Newt", "therapist", 0⟩ "t9" 7).2.2 rfl rfl⟩

/-- **C8.** The therapist listing returns only profiles with
`is_available = true` (every unavailable profile is excluded) and at most
100 of them. -/
theorem c8_listing_available_bounded (db : DB) :
    (∀ t ∈ get_therapists db, t.is_available = true) ∧
    (get_therapists db).length ≤ 100 := by
  constructor
  · intro t ht
    exact (List.mem_filter.mp (List.take_subset _ _ ht)).2
  · exact List.length_take_le 100 (db.therapists.filter fun t => t.is_available)

/-- Witness for C8: the property at the example database. -/
theorem c8_witness :
    (∀ t ∈ get_therapists exDb, t.is_available = true) ∧
    (get_therapists exDb).length ≤ 100 :=
  c8_listing_available_bounded exDb
